import Mathlib

/-!
Verification of the FourStarGeneral campaign-patch scripts.

The repository holds two Python scripts:
* fix_campaign.py reads a campaign JSON document, drops every tile whose
  kind/r-coordinate match hardcoded removal rules, appends 19 hardcoded
  addition tiles and writes the document back;
* verify_changes.py re-reads the document and filters the tiles by several
  kind/coordinate queries, printing counts.

This file embeds the tile data model and both scripts' tile-level logic as
executable Lean definitions and proves the specification claims about them.
Python dictionary reads with a default (tile.get, hex.get) are modelled with
Option.getD; direct subscript reads (tile['hex']['r']) are modelled in
Except, where an error value stands for the KeyError the interpreter would
raise.
-/

namespace FourStarGeneral

/-- One force entry of a tile: unitType / count / label, each possibly
absent from the underlying JSON object. -/
structure Force where
  unitType : Option String
  count : Option Int
  label : Option String
deriving DecidableEq, Repr

/-- The hex position object of a tile; q or r may be absent. -/
structure Hex where
  q : Option Int
  r : Option Int
deriving DecidableEq, Repr

/-- A tile record of the campaign document.  Only the fields the scripts
ever read are modelled; each is optional because the scripts defend (or
fail to defend) against its absence. -/
structure Tile where
  tile : Option String
  hex : Option Hex
  forces : Option (List Force)
  controlSinceDay : Option Int
  controlSinceSegment : Option Int
  rotation : Option Int
deriving DecidableEq, Repr

/-- Helper to build a fully populated force literal. -/
def mkForce (u : String) (c : Int) (l : String) : Force :=
  ⟨some u, some c, some l⟩

/-- Helper to build a fully populated tile literal as they occur in the
addition lists of fix_campaign.py. -/
def mkTile (k : String) (q r : Int) (fs : List Force) (rot : Option Int) : Tile :=
  ⟨some k, some ⟨some q, some r⟩, some fs, some 1, some 0, rot⟩

/-- fix_campaign.py line 15: tile.get('tile', ''). -/
def tileType (t : Tile) : String := t.tile.getD ""

/-- fix_campaign.py line 16: tile.get('hex', \x7b\x7d).get('r', 0). -/
def hexR (t : Tile) : Int :=
  match t.hex with
  | none => 0
  | some h => h.r.getD 0

/-- fix_campaign.py line 19: the heavy-fortification removal condition. -/
def matchesHeavyRule (t : Tile) : Bool :=
  decide (tileType t = "botFortificationHeavy" ∧ 18 ≤ hexR t ∧ hexR t ≤ 23)

/-- fix_campaign.py line 24: the light-fortification removal condition. -/
def matchesLightRule (t : Tile) : Bool :=
  decide (tileType t = "botFortificationLight" ∧ 25 ≤ hexR t ∧ hexR t ≤ 29)

/-- A tile is excluded by the filter loop iff one of the two removal
conditions holds for it. -/
def matchesAnyRule (t : Tile) : Bool :=
  matchesHeavyRule t || matchesLightRule t

/-- Whether tile['hex']['q'] is readable, as the removal print statements
(fix_campaign.py lines 20 and 25) require for every removed tile. -/
def hasHexQ (t : Tile) : Bool := (t.hex.bind Hex.q).isSome

/-- The filter loop of fix_campaign.py lines 13-28.  A removed tile is
printed with tile['hex']['q'], so removal of a tile whose hex object lacks
q raises a KeyError; this is modelled by the error case. -/
def filteredTilesE : List Tile → Except String (List Tile)
  | [] => Except.ok []
  | t :: ts =>
    if matchesHeavyRule t then
      if hasHexQ t then filteredTilesE ts else Except.error "KeyError"
    else if matchesLightRule t then
      if hasHexQ t then filteredTilesE ts else Except.error "KeyError"
    else
      (filteredTilesE ts).map (fun l => t :: l)

/-- The pure value the filter loop computes whenever it completes: the
input tiles that match no removal rule, in input order. -/
def survivorTiles (ts : List Tile) : List Tile :=
  ts.filter (fun t => !matchesAnyRule t)

/-- fix_campaign.py lines 33-100: the six new heavy fortifications. -/
def new_heavy_fortifications : List Tile :=
  [mkTile "botFortificationHeavy" 8 20
      [mkForce "Artillery_155mm" 4 "Atlantic Wall - West Battery",
       mkForce "Infantry_42" 6 "Coastal Defense Regiment"] (some 0),
   mkTile "botFortificationHeavy" 15 21
      [mkForce "Artillery_155mm" 5 "Festung Europa Heavy Battery",
       mkForce "Infantry_42" 7 "Fortress Garrison"] (some 0),
   mkTile "botFortificationHeavy" 22 20
      [mkForce "Artillery_155mm" 4 "Central Atlantic Wall",
       mkForce "Infantry_42" 6 "Bunker Defense"] (some 0),
   mkTile "botFortificationHeavy" 28 21
      [mkForce "Artillery_155mm" 5 "Le Havre Coastal Battery",
       mkForce "Infantry_42" 7 "Port Defense Battalion"] (some 0),
   mkTile "botFortificationHeavy" 35 22
      [mkForce "Artillery_155mm" 4 "Eastern Sector Battery",
       mkForce "Infantry_42" 6 "Coastal Artillery Crew"] (some 0),
   mkTile "botFortificationHeavy" 42 21
      [mkForce "Artillery_155mm" 5 "Far East Atlantic Wall",
       mkForce "Infantry_42" 7 "Elite Coastal Defense"] (some 0)]

/-- fix_campaign.py lines 103-159: the five new light fortifications. -/
def new_light_fortifications : List Tile :=
  [mkTile "botFortificationLight" 10 23
      [mkForce "Infantry_42" 7 "Secondary Defense Line West",
       mkForce "Artillery_105mm" 2 "Support Artillery"] (some 0),
   mkTile "botFortificationLight" 18 24
      [mkForce "Infantry_42" 8 "Inland Defense Position",
       mkForce "Artillery_105mm" 3 "Field Artillery"] (some 0),
   mkTile "botFortificationLight" 25 23
      [mkForce "Infantry_42" 7 "Reserve Defense Battalion",
       mkForce "Artillery_105mm" 2 "Mobile Artillery"] (some 0),
   mkTile "botFortificationLight" 32 24
      [mkForce "Infantry_42" 8 "Fallback Position East",
       mkForce "Artillery_105mm" 3 "Defensive Artillery"] (some 0),
   mkTile "botFortificationLight" 40 25
      [mkForce "Infantry_42" 6 "Eastern Inland Defense",
       mkForce "Artillery_105mm" 2 "Support Guns"] (some 0)]

/-- fix_campaign.py lines 162-207: the four new naval bases (no rotation
field in the source literals). -/
def new_naval_bases : List Tile :=
  [mkTile "botNavalBase" 10 20
      [mkForce "Destroyer" 4 "Cherbourg Naval Squadron",
       mkForce "Patrol_Boat" 5 "Coastal Patrol",
       mkForce "Infantry_42" 7 "Cherbourg Garrison"] none,
   mkTile "botNavalBase" 20 21
      [mkForce "Destroyer" 3 "Western Kriegsmarine",
       mkForce "Patrol_Boat" 6 "Harbor Defense Boats",
       mkForce "Infantry_42" 6 "Port Security Battalion"] none,
   mkTile "botNavalBase" 28 20
      [mkForce "Destroyer" 5 "Le Havre Naval Group",
       mkForce "Patrol_Boat" 4 "Patrol Squadron",
       mkForce "Infantry_42" 8 "Le Havre Kriegsmarine Garrison"] none,
   mkTile "botNavalBase" 40 21
      [mkForce "Destroyer" 4 "Eastern Naval Squadron",
       mkForce "Patrol_Boat" 5 "Coastal Defense Flotilla",
       mkForce "Infantry_42" 7 "Eastern Port Garrison"] none]

/-- fix_campaign.py lines 212-255: the four new logistics/airbase tiles. -/
def new_bases : List Tile :=
  [mkTile "botLogistics" 44 23
      [mkForce "Supply_Truck" 5 "Northeast Supply Hub",
       mkForce "Infantry_42" 4 "Depot Security"] none,
   mkTile "botAirbase" 47 25
      [mkForce "Interceptor" 5 "Northeast Air Defense",
       mkForce "Bomber" 2 "Strike Squadron"] none,
   mkTile "botLogistics" 8 31
      [mkForce "Panzer_IV" 4 "Southwest Armored Reserve",
       mkForce "Infantry_Elite" 6 "Elite Battalion"] none,
   mkTile "botAirbase" 11 33
      [mkForce "Interceptor" 4 "Southwest Air Wing",
       mkForce "Bomber" 3 "Tactical Bombers"] none]

/-- All tiles the script appends, in source order (fix_campaign.py lines
257-268). -/
def additionTiles : List Tile :=
  new_heavy_fortifications ++ new_light_fortifications ++ new_naval_bases ++ new_bases

/-- The final tile list fix_campaign.py stores back into the document:
the surviving tiles followed by the four addition groups. -/
def finalTiles (l : List Tile) : List Tile := l ++ additionTiles

/-- Reading tile['hex']['r'] by direct subscript, as every filter of
verify_changes.py does; the error value models the KeyError the interpreter
raises when the hex object or its r key is absent. -/
def readHexRE (t : Tile) : Except String Int :=
  match t.hex with
  | none => Except.error "KeyError"
  | some h =>
    match h.r with
    | none => Except.error "KeyError"
    | some r => Except.ok r

/-- The verify_changes.py list comprehensions of shape
[t for t in tiles if t.get('tile') == kind and lo <= t['hex']['r'] <= hi]
(lines 14, 22, 63, 64).  t.get('tile') with no default yields None for a
missing key, so the kind test is equality with some kind; the range test
dereferences t['hex']['r'] and can raise. -/
def verifyFilterE (kind : String) (lo hi : Int) : List Tile → Except String (List Tile)
  | [] => Except.ok []
  | t :: ts =>
    if t.tile = some kind then
      match readHexRE t with
      | Except.error e => Except.error e
      | Except.ok r =>
        if lo ≤ r ∧ r ≤ hi then (verifyFilterE kind lo hi ts).map (fun l => t :: l)
        else verifyFilterE kind lo hi ts
    else verifyFilterE kind lo hi ts

/-- verify_changes.py line 14: the heavy-fortification display filter. -/
def heavyDisplayE (ts : List Tile) : Except String (List Tile) :=
  verifyFilterE "botFortificationHeavy" 20 22 ts

/-- verify_changes.py line 63: heavy fortifications flagged as incorrect. -/
def badHeavyE (ts : List Tile) : Except String (List Tile) :=
  verifyFilterE "botFortificationHeavy" 18 19 ts

/-- verify_changes.py line 64: light fortifications flagged as incorrect. -/
def badLightE (ts : List Tile) : Except String (List Tile) :=
  verifyFilterE "botFortificationLight" 26 29 ts

/-- A top-level value of the campaign document: either the tiles array or
an arbitrary value the scripts never inspect. -/
inductive JVal where
  | tilesVal : List Tile → JVal
  | other : String → JVal
deriving DecidableEq, Repr

/-- Replace the value of one document entry when its key is k. -/
def setEntry (k : String) (v : JVal) (p : String × JVal) : String × JVal :=
  if p.1 = k then (k, v) else p

/-- data['tiles'] = v on a Python dict: an existing key keeps its position
and only its value changes; an absent key is appended at the end. -/
def setKey (doc : List (String × JVal)) (k : String) (v : JVal) : List (String × JVal) :=
  if doc.any (fun p => p.1 = k) then
    doc.map (setEntry k v)
  else doc ++ [(k, v)]

/-- fix_campaign.py line 8: tiles = data['tiles'].  A missing key is a
KeyError; a non-array value makes the later loop fail, modelled as a
TypeError. -/
def getTiles (doc : List (String × JVal)) : Except String (List Tile) :=
  match doc.lookup "tiles" with
  | some (JVal.tilesVal ts) => Except.ok ts
  | some (JVal.other _) => Except.error "TypeError"
  | none => Except.error "KeyError"

/-- The whole document transformation of fix_campaign.py: read data['tiles'],
run the removal filter, append the additions and store the result back under
the key 'tiles', leaving every other entry of the document alone. -/
def fix_campaign (doc : List (String × JVal)) : Except String (List (String × JVal)) :=
  match getTiles doc with
  | Except.error e => Except.error e
  | Except.ok ts =>
    match filteredTilesE ts with
    | Except.error e => Except.error e
    | Except.ok l => Except.ok (setKey doc "tiles" (JVal.tilesVal (finalTiles l)))

/-- The effects the persistence code of fix_campaign.py lines 274-275 has on
the destination file: open(path, 'w') truncates the file at once, and only
then does json.dump stream the new content. -/
inductive WriteStep where
  | openTruncate
  | dumpJson
deriving DecidableEq, Repr

/-- The ordered effect sequence of the source's write code. -/
def fixWriteSteps : List WriteStep := [WriteStep.openTruncate, WriteStep.dumpJson]

/-- File content after executing an initial run of write steps, starting
from the original content; a run shorter than the whole sequence models a
failure at that point. -/
def runWriteSteps (original newContent : String) (steps : List WriteStep) : String :=
  steps.foldl
    (fun _cur s =>
      match s with
      | WriteStep.openTruncate => ""
      | WriteStep.dumpJson => newContent)
    original

/-- The printed value of fix_campaign.py line 30, taken at the moment the
filter loop has finished: len(tiles) - len(filtered_tiles), over Python
integers. -/
def removedCountPrint (ts l : List Tile) : Int :=
  (ts.length : Int) - (l.length : Int)

/-- The printed value of fix_campaign.py line 279, taken after the four
extend calls: len(tiles) - len(filtered_tiles) + the four addition list
lengths, over Python integers. -/
def summaryRemovedPrint (ts final : List Tile) : Int :=
  (ts.length : Int) - (final.length : Int) +
    ((new_heavy_fortifications.length + new_light_fortifications.length +
      new_naval_bases.length + new_bases.length : Nat) : Int)

/-- A tile is clean for a verify query when the query, reaching it, neither
raises nor selects it: either t[hex][r] is unreadable (readHexRE errors,
in which case the comprehension stops before producing a list) or the tile
fails the kind/range test. -/
def cleanB (kind : String) (lo hi : Int) (t : Tile) : Bool :=
  match readHexRE t with
  | Except.error _ => true
  | Except.ok r => !(decide (t.tile = some kind) && decide (lo ≤ r) && decide (r ≤ hi))

/-- A heavy-fortification tile whose hex object is absent altogether. -/
def noHexTile : Tile :=
  ⟨some "botFortificationHeavy", none, none, none, none, none⟩

/-- A concrete tile the removal rules exclude (heavy fortification, r = 20). -/
def demoRemovedTile : Tile := mkTile "botFortificationHeavy" 5 20 [] (some 0)

/-- A concrete tile no removal rule touches. -/
def demoKeptTile : Tile := mkTile "cityTile" 3 10 [] none

/-- A concrete two-tile campaign used to instantiate the theorems. -/
def demoTiles : List Tile := [demoRemovedTile, demoKeptTile]

/-- A concrete campaign document with one opaque entry besides tiles. -/
def demoDoc : List (String × JVal) :=
  [("name", JVal.other "campaign01"), ("tiles", JVal.tilesVal demoTiles)]

/-- The document fix_campaign produces from demoDoc. -/
def demoOutDoc : List (String × JVal) :=
  [("name", JVal.other "campaign01"),
   ("tiles", JVal.tilesVal (finalTiles [demoKeptTile]))]

theorem filteredTilesE_ok (ts l : List Tile) (h : filteredTilesE ts = Except.ok l) :
    l = survivorTiles ts := by
  induction ts generalizing l with
  | nil =>
    simp [filteredTilesE] at h
    subst h
    simp [survivorTiles]
  | cons t ts ih =>
    by_cases hh : matchesHeavyRule t
    · rw [filteredTilesE, if_pos hh] at h
      split at h
      · have := ih l h
        simp [survivorTiles, List.filter, matchesAnyRule, hh] at this ⊢
        exact this
      · cases h
    · by_cases hl : matchesLightRule t
      · rw [filteredTilesE, if_neg hh, if_pos hl] at h
        split at h
        · have := ih l h
          simp [survivorTiles, List.filter, matchesAnyRule, hh, hl] at this ⊢
          exact this
        · cases h
      · rw [filteredTilesE, if_neg hh, if_neg hl] at h
        cases hrec : filteredTilesE ts with
        | error e => rw [hrec] at h; cases h
        | ok l0 =>
          rw [hrec] at h
          simp [Except.map] at h
          have := ih l0 hrec
          simp [survivorTiles, List.filter, matchesAnyRule, hh, hl, ← h, this]

theorem survivorTiles_length (ts : List Tile) :
    (survivorTiles ts).length + ts.countP matchesAnyRule = ts.length := by
  induction ts with
  | nil => rfl
  | cons t ts ih =>
    by_cases h : matchesAnyRule t = true
    · simp [survivorTiles, List.filter_cons, List.countP_cons, h] at ih ⊢
      omega
    · simp [survivorTiles, List.filter_cons, List.countP_cons, h] at ih ⊢
      omega

/-- Claim C1: whenever the filter loop completes, the tile list written
back has length original count minus the number of tiles excluded by the
removal rules plus the number of appended addition tiles, and the additions
number 19: 6 heavy fortifications, 5 light fortifications, 4 naval bases
and 4 logistics/airbases. -/
theorem fix_campaign_tile_count (ts l : List Tile)
    (h : filteredTilesE ts = Except.ok l) :
    (finalTiles l).length = ts.length - ts.countP matchesAnyRule + 19 ∧
    additionTiles.length = 19 ∧
    new_heavy_fortifications.length = 6 ∧
    new_light_fortifications.length = 5 ∧
    new_naval_bases.length = 4 ∧
    new_bases.length = 4 := by
  have hs := filteredTilesE_ok ts l h
  have hlen := survivorTiles_length ts
  subst hs
  refine ⟨?_, by decide, by decide, by decide, by decide, by decide⟩
  have hadd : (finalTiles (survivorTiles ts)).length = (survivorTiles ts).length + 19 := by
    simp [finalTiles, additionTiles, new_heavy_fortifications,
      new_light_fortifications, new_naval_bases, new_bases]
  omega

theorem fix_campaign_tile_count_witness :
    filteredTilesE demoTiles = Except.ok [demoKeptTile] ∧
    (finalTiles [demoKeptTile]).length = demoTiles.length - demoTiles.countP matchesAnyRule + 19 := by
  have h : filteredTilesE demoTiles = Except.ok [demoKeptTile] := by rfl
  exact ⟨h, (fix_campaign_tile_count demoTiles [demoKeptTile] h).1⟩

/-- Claim C2: the removed count the program prints (line 30 right after the
loop, and again in the completion summary at line 279 where the addition
lengths compensate for the extends already performed) equals the number of
input tiles the removal rules excluded, and the final tile count equals
original count minus removed count plus added count. -/
theorem reported_removed_count_correct (ts l : List Tile)
    (h : filteredTilesE ts = Except.ok l) :
    removedCountPrint ts l = ts.countP matchesAnyRule ∧
    summaryRemovedPrint ts (finalTiles l) = ts.countP matchesAnyRule ∧
    ((finalTiles l).length : Int) =
      (ts.length : Int) - ts.countP matchesAnyRule + additionTiles.length := by
  have hs := filteredTilesE_ok ts l h
  have hlen := survivorTiles_length ts
  subst hs
  have hadd : (finalTiles (survivorTiles ts)).length = (survivorTiles ts).length + 19 := by
    simp [finalTiles, additionTiles, new_heavy_fortifications,
      new_light_fortifications, new_naval_bases, new_bases]
  have h19 : additionTiles.length = 19 := by decide
  have h6 : new_heavy_fortifications.length = 6 := by decide
  have h5 : new_light_fortifications.length = 5 := by decide
  have h4 : new_naval_bases.length = 4 := by decide
  have h4b : new_bases.length = 4 := by decide
  refine ⟨?_, ?_, ?_⟩ <;>
    simp [removedCountPrint, summaryRemovedPrint, hadd, h19, h6, h5, h4, h4b] <;>
    omega

theorem reported_removed_count_correct_witness :
    removedCountPrint demoTiles [demoKeptTile] = demoTiles.countP matchesAnyRule ∧
    summaryRemovedPrint demoTiles (finalTiles [demoKeptTile]) = demoTiles.countP matchesAnyRule := by
  have h := reported_removed_count_correct demoTiles [demoKeptTile] (by rfl)
  exact ⟨h.1, h.2.1⟩

/-- Claim C3: the filter keeps exactly the tiles matching no removal rule,
and a rule matches precisely when the tile kind string equals the rule kind
and the (defaulted) r coordinate lies in the inclusive range: heavy
fortifications with 18 ≤ r ≤ 23 or light fortifications with 25 ≤ r ≤ 29;
tiles of every other kind always survive. -/
theorem removal_rule_characterization (ts l : List Tile)
    (h : filteredTilesE ts = Except.ok l) :
    l = ts.filter (fun t => !matchesAnyRule t) ∧
    ∀ t, matchesAnyRule t = true ↔
      ((tileType t = "botFortificationHeavy" ∧ 18 ≤ hexR t ∧ hexR t ≤ 23) ∨
       (tileType t = "botFortificationLight" ∧ 25 ≤ hexR t ∧ hexR t ≤ 29)) := by
  refine ⟨filteredTilesE_ok ts l h, ?_⟩
  intro t
  simp [matchesAnyRule, matchesHeavyRule, matchesLightRule]

theorem removal_rule_characterization_witness :
    [demoKeptTile] = demoTiles.filter (fun t => !matchesAnyRule t) ∧
    (matchesAnyRule demoRemovedTile = true ↔
      ((tileType demoRemovedTile = "botFortificationHeavy" ∧
        18 ≤ hexR demoRemovedTile ∧ hexR demoRemovedTile ≤ 23) ∨
       (tileType demoRemovedTile = "botFortificationLight" ∧
        25 ≤ hexR demoRemovedTile ∧ hexR demoRemovedTile ≤ 29))) := by
  have h := removal_rule_characterization demoTiles [demoKeptTile] (by rfl)
  exact ⟨h.1, h.2 demoRemovedTile⟩

/-- Claim C4: removal is stable — the surviving list is a sublist of the
input (so any survivor that preceded another in the input still precedes it
in the output) — and the written list is exactly the survivors followed by
the additions in their given group order: heavy fortifications, light
fortifications, naval bases, then logistics/airbases. -/
theorem removal_stable_additions_last (ts l : List Tile)
    (h : filteredTilesE ts = Except.ok l) :
    l.Sublist ts ∧
    finalTiles l = l ++ (new_heavy_fortifications ++ new_light_fortifications ++
      new_naval_bases ++ new_bases) := by
  have hs := filteredTilesE_ok ts l h
  subst hs
  exact ⟨List.filter_sublist ts, rfl⟩

theorem removal_stable_additions_last_witness :
    List.Sublist [demoKeptTile] demoTiles ∧
    finalTiles [demoKeptTile] = [demoKeptTile] ++ (new_heavy_fortifications ++
      new_light_fortifications ++ new_naval_bases ++ new_bases) :=
  removal_stable_additions_last demoTiles [demoKeptTile] (by rfl)

/-- Claim C5: a tile whose hex object is absent, or whose hex object has no
r key, reads as r = 0 through the get defaults, matches neither removal
rule, and—whenever the filter loop completes—appears among the survivors. -/
theorem missing_r_never_removed (t : Tile) (hmiss : t.hex.bind Hex.r = none) :
    matchesHeavyRule t = false ∧ matchesLightRule t = false ∧
    ∀ ts l, filteredTilesE ts = Except.ok l → t ∈ ts → t ∈ l := by
  have hr : hexR t = 0 := by
    unfold hexR
    cases hh : t.hex with
    | none => rfl
    | some hx =>
      rw [hh] at hmiss
      simp [Option.bind] at hmiss
      simp [hmiss]
  have hh : matchesHeavyRule t = false := by
    simp [matchesHeavyRule, hr]
  have hl : matchesLightRule t = false := by
    simp [matchesLightRule, hr]
  refine ⟨hh, hl, ?_⟩
  intro ts l hok hmem
  have hs := filteredTilesE_ok ts l hok
  subst hs
  simp [survivorTiles, List.mem_filter, matchesAnyRule, hh, hl, hmem]

theorem missing_r_never_removed_witness :
    matchesHeavyRule noHexTile = false ∧ matchesLightRule noHexTile = false ∧
    noHexTile ∈ ([noHexTile] : List Tile) := by
  have h := missing_r_never_removed noHexTile (by rfl)
  exact ⟨h.1, h.2.1, h.2.2 [noHexTile] [noHexTile] (by rfl) (by simp)⟩

/-- Claim C6 (counterexample): a heavy-fortification tile with no hex
object makes the very first tile filter of verify_changes.py (line 14)
raise a KeyError, so the verification script does not run to completion on
every tile list. -/
theorem verify_raises_on_missing_hex :
    heavyDisplayE [noHexTile] = Except.error "KeyError" := by rfl

/-- Claim C6 (amended): the patch script's filter loop runs to completion
on every tile list in which each tile matching a removal rule has an hex.q
key (the only subscript the loop dereferences, in the removal print);
tiles lacking hex, r, or forces match no rule and never cause an error
there.  The verification script lacks this robustness. -/
theorem patch_filter_total_when_removed_have_q (ts : List Tile)
    (h : ∀ t ∈ ts, matchesAnyRule t = true → hasHexQ t = true) :
    ∃ l, filteredTilesE ts = Except.ok l := by
  induction ts with
  | nil => exact ⟨[], rfl⟩
  | cons t ts ih =>
    obtain ⟨l, hl⟩ := ih (fun u hu hm => h u (List.mem_cons_of_mem _ hu) hm)
    by_cases hh : matchesHeavyRule t
    · have hq : hasHexQ t = true := by
        apply h t (List.mem_cons_self _ _)
        simp [matchesAnyRule, hh]
      exact ⟨l, by rw [filteredTilesE, if_pos hh, if_pos hq]; exact hl⟩
    · by_cases hlt : matchesLightRule t
      · have hq : hasHexQ t = true := by
          apply h t (List.mem_cons_self _ _)
          simp [matchesAnyRule, hlt]
        exact ⟨l, by rw [filteredTilesE, if_neg hh, if_pos hlt, if_pos hq]; exact hl⟩
      · exact ⟨t :: l, by rw [filteredTilesE, if_neg hh, if_neg hlt, hl]; rfl⟩

theorem patch_filter_total_witness :
    (∀ t ∈ demoTiles, matchesAnyRule t = true → hasHexQ t = true) ∧
    ∃ l, filteredTilesE demoTiles = Except.ok l :=
  ⟨by decide, patch_filter_total_when_removed_have_q demoTiles (by decide)⟩

theorem lookup_any_key (doc : List (String × JVal)) (k : String)
    (h : (doc.lookup k).isSome) : doc.any (fun p => p.1 = k) = true := by
  induction doc with
  | nil => simp [List.lookup] at h
  | cons p es ih =>
    obtain ⟨a, b⟩ := p
    by_cases hak : a = k
    · simp [hak]
    · have hbeq : (k == a) = false := by
        simp
        exact fun h2 => hak h2.symm
      simp only [List.lookup, hbeq] at h
      simp only [List.any_cons, Bool.or_eq_true]
      exact Or.inr (ih h)

theorem setEntry_hit (k0 : String) (v : JVal) (b : JVal) :
    setEntry k0 v (k0, b) = (k0, v) := by
  simp [setEntry]

theorem setEntry_miss (k0 a : String) (v : JVal) (b : JVal) (ha : a ≠ k0) :
    setEntry k0 v (a, b) = (a, b) := by
  simp [setEntry, ha]

theorem lookup_map_setKey (es : List (String × JVal)) (k0 k : String) (v : JVal)
    (hk : k ≠ k0) :
    List.lookup k (es.map (setEntry k0 v)) = List.lookup k es := by
  induction es with
  | nil => rfl
  | cons p es ih =>
    obtain ⟨a, b⟩ := p
    rw [List.map_cons]
    by_cases ha : a = k0
    · subst ha
      rw [setEntry_hit]
      have hbeq0 : (k == a) = false := by
        simp
        exact hk
      simp only [List.lookup, hbeq0]
      exact ih
    · rw [setEntry_miss k0 a v b ha]
      by_cases hak : k = a
      · subst hak
        have hbeq : (k == k) = true := by simp
        simp only [List.lookup, hbeq]
      · have hbeq : (k == a) = false := by simp [hak]
        simp only [List.lookup, hbeq]
        exact ih

theorem lookup_append_single (doc : List (String × JVal)) (k0 k : String)
    (v : JVal) (hk : k ≠ k0) :
    List.lookup k (doc ++ [(k0, v)]) = List.lookup k doc := by
  induction doc with
  | nil =>
    have hbeq0 : (k == k0) = false := by
      simp
      exact hk
    simp [List.lookup, hbeq0]
  | cons p es ih =>
    obtain ⟨a, b⟩ := p
    by_cases hak : k = a
    · simp [List.cons_append, List.lookup, hak]
    · have hbeq : (k == a) = false := by simp [hak]
      simp only [List.cons_append, List.lookup, hbeq]
      exact ih

theorem setKey_lookup (doc : List (String × JVal)) (k0 k : String) (v : JVal)
    (hk : k ≠ k0) : (setKey doc k0 v).lookup k = doc.lookup k := by
  unfold setKey
  split
  · exact lookup_map_setKey doc k0 k v hk
  · exact lookup_append_single doc k0 k v hk

theorem map_fst_setKey_map (es : List (String × JVal)) (k0 : String) (v : JVal) :
    (es.map (setEntry k0 v)).map Prod.fst = es.map Prod.fst := by
  induction es with
  | nil => rfl
  | cons p es ih =>
    obtain ⟨a, b⟩ := p
    rw [List.map_cons]
    by_cases ha : a = k0
    · subst ha
      rw [setEntry_hit]
      simp [ih]
    · rw [setEntry_miss k0 a v b ha]
      simp [ih]

theorem setKey_keys (doc : List (String × JVal)) (k0 : String) (v : JVal)
    (hp : doc.any (fun p => p.1 = k0) = true) :
    (setKey doc k0 v).map Prod.fst = doc.map Prod.fst := by
  unfold setKey
  rw [if_pos hp]
  exact map_fst_setKey_map doc k0 v

/-- Claim C7: fix_campaign only rewrites the tiles entry of the document:
every other key keeps its value, no key is lost and the key order is
unchanged. -/
theorem fix_campaign_preserves_other_keys (doc out : List (String × JVal))
    (h : fix_campaign doc = Except.ok out) :
    (∀ k, k ≠ "tiles" → out.lookup k = doc.lookup k) ∧
    out.map Prod.fst = doc.map Prod.fst := by
  unfold fix_campaign at h
  cases hg : getTiles doc with
  | error e => rw [hg] at h; cases h
  | ok ts =>
    rw [hg] at h
    dsimp only at h
    cases hf : filteredTilesE ts with
    | error e => rw [hf] at h; cases h
    | ok l =>
      rw [hf] at h
      dsimp only at h
      injection h with hout
      subst hout
      have hpresent : (doc.lookup "tiles").isSome := by
        unfold getTiles at hg
        cases hl : doc.lookup "tiles" with
        | none => rw [hl] at hg; cases hg
        | some jv => simp [hl]
      constructor
      · intro k hk
        exact setKey_lookup doc "tiles" k _ hk
      · exact setKey_keys doc "tiles" _ (lookup_any_key doc "tiles" hpresent)

theorem fix_campaign_preserves_other_keys_witness :
    fix_campaign demoDoc = Except.ok demoOutDoc ∧
    demoOutDoc.lookup "name" = demoDoc.lookup "name" ∧
    demoOutDoc.map Prod.fst = demoDoc.map Prod.fst := by
  have h : fix_campaign demoDoc = Except.ok demoOutDoc := by rfl
  have hfr := fix_campaign_preserves_other_keys demoDoc demoOutDoc h
  exact ⟨h, hfr.1 "name" (by decide), hfr.2⟩

/-- Claim C8: the persistence code truncates the destination before any of
the new content exists on disk: the first effect of the write sequence is
the truncation performed by opening with mode w, so a failure during
json.dump leaves the file empty rather than holding the original content. -/
theorem write_truncates_before_dump :
    fixWriteSteps = [WriteStep.openTruncate, WriteStep.dumpJson] ∧
    runWriteSteps "original campaign content" "new campaign content"
      (fixWriteSteps.take 1) = "" ∧
    "original campaign content" ≠ "" := by
  refine ⟨rfl, rfl, ?_⟩
  decide

theorem readHexRE_error_eq (t : Tile) (e : String)
    (h : readHexRE t = Except.error e) : e = "KeyError" := by
  unfold readHexRE at h
  cases ht : t.hex with
  | none =>
    simp only [ht] at h
    injection h with h0
    exact h0.symm
  | some hx =>
    simp only [ht] at h
    cases hr : hx.r with
    | none =>
      simp only [hr] at h
      injection h with h0
      exact h0.symm
    | some r => simp only [hr] at h; cases h

theorem readHexRE_ok_hexR (t : Tile) (r : Int)
    (h : readHexRE t = Except.ok r) : hexR t = r := by
  unfold readHexRE at h
  unfold hexR
  cases ht : t.hex with
  | none => simp only [ht] at h; cases h
  | some hx =>
    simp only [ht] at h
    cases hr : hx.r with
    | none => simp only [hr] at h; cases h
    | some r0 =>
      simp only [hr] at h
      injection h with h0
      simp [hr, h0]

theorem cleanB_of_not_match (kind : String) (lo hi lo2 hi2 : Int) (t : Tile)
    (hrange : ∀ r : Int, lo2 ≤ r ∧ r ≤ hi2 → lo ≤ r ∧ r ≤ hi)
    (hm : ¬(tileType t = kind ∧ lo ≤ hexR t ∧ hexR t ≤ hi)) :
    cleanB kind lo2 hi2 t = true := by
  unfold cleanB
  cases hr : readHexRE t with
  | error e => rfl
  | ok r =>
    have hx := readHexRE_ok_hexR t r hr
    by_cases hk : t.tile = some kind
    · have hnotr : ¬(lo2 ≤ r ∧ r ≤ hi2) := by
        intro hrr
        exact hm ⟨by simp [tileType, hk],
          by rw [hx]; exact (hrange r hrr).1,
          by rw [hx]; exact (hrange r hrr).2⟩
      by_cases h1 : lo2 ≤ r
      · by_cases h2 : r ≤ hi2
        · exact absurd ⟨h1, h2⟩ hnotr
        · simp [hk, h1, h2]
      · simp [hk, h1]
    · simp [hk]

theorem verifyFilterE_clean (kind : String) (lo hi : Int) (lst : List Tile)
    (h : ∀ t ∈ lst, cleanB kind lo hi t = true) :
    verifyFilterE kind lo hi lst = Except.error "KeyError" ∨
    verifyFilterE kind lo hi lst = Except.ok [] := by
  induction lst with
  | nil => exact Or.inr rfl
  | cons t ts ih =>
    have hts := ih (fun u hu => h u (List.mem_cons_of_mem _ hu))
    have hclean := h t (List.mem_cons_self _ _)
    by_cases hk : t.tile = some kind
    · rw [verifyFilterE, if_pos hk]
      cases hr : readHexRE t with
      | error e =>
        left
        dsimp only
        rw [readHexRE_error_eq t e hr]
      | ok r =>
        have hrange : ¬(lo ≤ r ∧ r ≤ hi) := by
          unfold cleanB at hclean
          rw [hr] at hclean
          simp [hk] at hclean
          intro hrr
          omega
        dsimp only
        rw [if_neg hrange]
        exact hts
    · rw [verifyFilterE, if_neg hk]
      exact hts

/-- Claim C9: the removal ranges (heavy 18-23, light 25-29) strictly cover
the ranges the verification script later checks (heavy 18-19, light 26-29),
and none of the appended tiles falls in the checked ranges, so on the fix
script's own output both no-incorrect-fortifications checks of
verify_changes.py select zero tiles whenever they run to completion. -/
theorem verify_bad_filters_empty_on_output (ts l : List Tile)
    (h : filteredTilesE ts = Except.ok l) :
    (badHeavyE (finalTiles l) = Except.error "KeyError" ∨
     badHeavyE (finalTiles l) = Except.ok []) ∧
    (badLightE (finalTiles l) = Except.error "KeyError" ∨
     badLightE (finalTiles l) = Except.ok []) := by
  have hs := filteredTilesE_ok ts l h
  subst hs
  constructor
  · apply verifyFilterE_clean
    intro t ht
    rw [finalTiles, List.mem_append] at ht
    rcases ht with hmem | hmem
    · have hsurv := (List.mem_filter.mp hmem).2
      have hm : matchesHeavyRule t = false := by
        simp [matchesAnyRule] at hsurv
        exact hsurv.1
      apply cleanB_of_not_match "botFortificationHeavy" 18 23 18 19 t
      · intro r hr; omega
      · exact of_decide_eq_false hm
    · have hall : additionTiles.all (cleanB "botFortificationHeavy" 18 19) = true := by
        decide
      exact List.all_eq_true.mp hall t hmem
  · apply verifyFilterE_clean
    intro t ht
    rw [finalTiles, List.mem_append] at ht
    rcases ht with hmem | hmem
    · have hsurv := (List.mem_filter.mp hmem).2
      have hm : matchesLightRule t = false := by
        simp [matchesAnyRule] at hsurv
        exact hsurv.2
      apply cleanB_of_not_match "botFortificationLight" 25 29 26 29 t
      · intro r hr; omega
      · exact of_decide_eq_false hm
    · have hall : additionTiles.all (cleanB "botFortificationLight" 26 29) = true := by
        decide
      exact List.all_eq_true.mp hall t hmem

theorem verify_bad_filters_empty_on_output_witness :
    (badHeavyE (finalTiles [demoKeptTile]) = Except.error "KeyError" ∨
     badHeavyE (finalTiles [demoKeptTile]) = Except.ok []) ∧
    (badLightE (finalTiles [demoKeptTile]) = Except.error "KeyError" ∨
     badLightE (finalTiles [demoKeptTile]) = Except.ok []) :=
  verify_bad_filters_empty_on_output demoTiles [demoKeptTile] (by rfl)

/-- Claim C10: applying the filter to the script's own output is not a
no-op: exactly 7 of the 19 appended tiles match the removal rules (all six
heavy fortifications, whose r lies in 20-22 inside the heavy range 18-23,
and the light fortification at r 25 inside the light range 25-29), so a
second run of the filter drops 7 of the tiles the first run added. -/
theorem additions_match_own_rules (ts l : List Tile)
    (h : filteredTilesE ts = Except.ok l) :
    new_heavy_fortifications.countP matchesAnyRule = 6 ∧
    new_light_fortifications.countP matchesAnyRule = 1 ∧
    additionTiles.countP matchesAnyRule = 7 ∧
    (survivorTiles (finalTiles l)).length + 7 = (finalTiles l).length := by
  have hs := filteredTilesE_ok ts l h
  subst hs
  refine ⟨by decide, by decide, by decide, ?_⟩
  have hl0 : (survivorTiles ts).countP matchesAnyRule = 0 := by
    rw [List.countP_eq_zero]
    intro t ht
    have hmem := List.mem_filter.mp ht
    simpa using hmem.2
  have h7 : additionTiles.countP matchesAnyRule = 7 := by decide
  have h19 : additionTiles.length = 19 := by decide
  have hlen := survivorTiles_length (finalTiles (survivorTiles ts))
  have hcnt : (finalTiles (survivorTiles ts)).countP matchesAnyRule = 7 := by
    rw [finalTiles, List.countP_append, hl0, h7]
  have hflen : (finalTiles (survivorTiles ts)).length = (survivorTiles ts).length + 19 := by
    rw [finalTiles, List.length_append, h19]
  omega

theorem additions_match_own_rules_witness :
    new_heavy_fortifications.countP matchesAnyRule = 6 ∧
    new_light_fortifications.countP matchesAnyRule = 1 ∧
    additionTiles.countP matchesAnyRule = 7 ∧
    (survivorTiles (finalTiles [demoKeptTile])).length + 7 =
      (finalTiles [demoKeptTile]).length :=
  additions_match_own_rules demoTiles [demoKeptTile] (by rfl)

end FourStarGeneral
